import Mathlib

/-!
Verification of the recommendation-derivation engine of the ai-coach
repository (`src/rules.py`): flag computation, focus selection, session
block composition and plan assembly, embedded shallowly in Lean 4.
Optional floating readings are modelled as `Option ℚ`; all comparisons in
the source are exact threshold comparisons, so rationals are faithful.
-/

/-- Input record, from `DailySummary` in `rules.py`. -/
structure DailySummary where
  date : String
  hrv_ms : Option ℚ
  rhr_bpm : Option ℚ
  sleep_min : Option Int
  temp_delta : Option ℚ
  load_7d : Option ℚ
  avg7_hrv_ms : Option ℚ
  avg7_rhr_bpm : Option ℚ
  cycle_phase : Option String
  context : List String
  time_min : Int

/-- The five boolean flags, from the dict built by `compute_flags`. -/
structure Flags where
  low_hrv : Bool
  high_rhr : Bool
  sleep_debt : Bool
  high_load : Bool
  late_luteal : Bool
deriving DecidableEq

/-- A session block, from the dicts built by `_short_session_blocks`. -/
structure Block where
  name : String
  duration_min : Int
  content : List String
deriving DecidableEq

/-- Output record, from the dict returned by `generate_plan`. -/
structure Plan where
  day_focus : String
  sessions : List Block
  recovery : List String
  flags : Flags
  cycle_note : Option String
  notes : String
deriving DecidableEq

/-- `_percent_delta` from `rules.py`: `None` when either operand is absent
or the baseline is zero, else `(value - baseline) / baseline * 100`. -/
def percent_delta (value baseline : Option ℚ) : Option ℚ :=
  match value, baseline with
  | some v, some b => if b = 0 then none else some ((v - b) / b * 100)
  | _, _ => none

/-- `compute_flags` from `rules.py`. -/
def compute_flags (s : DailySummary) : Flags where
  low_hrv := match percent_delta s.hrv_ms s.avg7_hrv_ms with
    | some d => decide (d < -10)
    | none => false
  high_rhr := match percent_delta s.rhr_bpm s.avg7_rhr_bpm with
    | some d => decide (d > 5)
    | none => false
  sleep_debt := match s.sleep_min with
    | some m => decide (m < 360)
    | none => false
  high_load := match s.load_7d with
    | some l => decide (l > 600)
    | none => false
  late_luteal := decide (s.cycle_phase = some "late_luteal")

/-- `_pick_focus` from `rules.py`. -/
def pick_focus (flags : Flags) (cycle_phase : Option String) : String :=
  if flags.low_hrv || flags.high_rhr || flags.sleep_debt || flags.high_load
      || flags.late_luteal then
    "Recovery / Deload"
  else if cycle_phase = some "follicular" ∨ cycle_phase = some "ovulatory" then
    "Speed / Strength"
  else
    "Aerobic Base / Skills"

/-- `_short_session_blocks` from `rules.py`: the fixed catalogue keyed by
time band, focus and the renovation tag. -/
def short_session_blocks (focus : String) (time_min : Int)
    (context : List String) : List Block :=
  if time_min ≤ 15 then
    if focus = "Recovery / Deload" then
      [⟨"Mobility", 8, ["hips", "t-spine", "calves"]⟩,
       ⟨"Core", 5, ["side plank 2×30″ each", "dead-bug 2×8"]⟩]
    else if focus = "Speed / Strength" ∧ "renovation" ∉ context then
      [⟨"Accel", 10, ["boots: 3×20 m accel (full rec)", "2×20 m strides"]⟩,
       ⟨"Core", 5, ["pallof press 2×8 each"]⟩]
    else
      [⟨"Z2 brisk walk", 12, ["RPE 3–4"]⟩]
  else if time_min ≤ 30 then
    if focus = "Recovery / Deload" then
      [⟨"Mobility", 8, ["hips", "t-spine", "calves"]⟩,
       ⟨"Technique", 10, ["wall drill A/B", "4×20 m strides (boots)"]⟩,
       ⟨"Core", 5, ["side plank 3×30″ each"]⟩]
    else if focus = "Speed / Strength" ∧ "renovation" ∉ context then
      [⟨"Accel + Plyo", 12, ["boots: 4×20 m accel", "broad jump 3×4"]⟩,
       ⟨"Strength (at-home)", 10, ["backpack split squat 3×8-e"]⟩,
       ⟨"Core", 5, ["dead-bug 3×8"]⟩]
    else
      [⟨"Z2 run / bike", 20, ["HR < 75% max"]⟩,
       ⟨"Mobility", 8, ["hips", "glutes"]⟩]
  else
    if focus = "Recovery / Deload" then
      [⟨"Z2 run / bike", 25, ["HR < 75% max"]⟩,
       ⟨"Mobility", 10, ["full lower + t-spine"]⟩,
       ⟨"Core", 10, ["side plank 3×30″", "dead-bug 3×10"]⟩]
    else if focus = "Speed / Strength" ∧ "renovation" ∉ context then
      [⟨"Accel + Plyo", 15,
          ["boots: 4×20 m accel", "fly 2×20 m", "broad jump 3×3"]⟩,
       ⟨"Strength (at-home)", 20,
          ["backpack front squat 4×6", "single-leg RDL 3×8-e"]⟩,
       ⟨"Core", 8, ["pallof press 3×8-e"]⟩]
    else
      [⟨"Z2 long", 35, ["HR < 75% max"]⟩,
       ⟨"Technique", 10, ["passing / ball-handling (trainers)"]⟩]

/-- `generate_plan` from `rules.py`. -/
def generate_plan (s : DailySummary) : Plan :=
  let flags := compute_flags s
  let focus := pick_focus flags s.cycle_phase
  let blocks := short_session_blocks focus s.time_min s.context
  let recovery :=
    (if flags.sleep_debt then
       ["Aim 7h30–8h sleep tonight; cool room; wind-down 30 min."]
     else []) ++
    ["+500 ml electrolytes after session"] ++
    (if s.cycle_phase = some "late_luteal" then
       ["Gentle p.m. mobility 10 min; prioritize sleep."]
     else [])
  let cycle_note :=
    if s.cycle_phase = some "follicular" ∨ s.cycle_phase = some "ovulatory" then
      some "You’re in a high-performance window—OK to push intensity if you feel fresh."
    else if s.cycle_phase = some "late_luteal" then
      some "Late luteal—deload 15–25% and favor low-impact work."
    else
      none
  { day_focus := focus
    sessions := blocks
    recovery := recovery
    flags := flags
    cycle_note := cycle_note
    notes := "Session adapted to time and context; avoid stacking two hard days." }

/-- Checked division: the one operation of the source that could raise in
Python, made explicit as an `Except`. -/
def div_checked (a b : ℚ) : Except String ℚ :=
  if b = 0 then Except.error "ZeroDivisionError: division by zero"
  else Except.ok (a / b)

/-- `_percent_delta` with the division routed through `div_checked`,
to make the totality of the source explicit. -/
def percent_delta_checked (value baseline : Option ℚ) :
    Except String (Option ℚ) :=
  match value, baseline with
  | some v, some b =>
      if b = 0 then Except.ok none
      else do
        let q ← div_checked (v - b) b
        pure (some (q * 100))
  | _, _ => Except.ok none

/-- `compute_flags` with fallible division made explicit. -/
def compute_flags_checked (s : DailySummary) : Except String Flags := do
  let hrv_delta ← percent_delta_checked s.hrv_ms s.avg7_hrv_ms
  let rhr_delta ← percent_delta_checked s.rhr_bpm s.avg7_rhr_bpm
  pure
    { low_hrv := match hrv_delta with
        | some d => decide (d < -10)
        | none => false
      high_rhr := match rhr_delta with
        | some d => decide (d > 5)
        | none => false
      sleep_debt := match s.sleep_min with
        | some m => decide (m < 360)
        | none => false
      high_load := match s.load_7d with
        | some l => decide (l > 600)
        | none => false
      late_luteal := decide (s.cycle_phase = some "late_luteal") }

/-- `generate_plan` with fallible division made explicit. -/
def generate_plan_checked (s : DailySummary) : Except String Plan := do
  let flags ← compute_flags_checked s
  let focus := pick_focus flags s.cycle_phase
  let blocks := short_session_blocks focus s.time_min s.context
  let recovery :=
    (if flags.sleep_debt then
       ["Aim 7h30–8h sleep tonight; cool room; wind-down 30 min."]
     else []) ++
    ["+500 ml electrolytes after session"] ++
    (if s.cycle_phase = some "late_luteal" then
       ["Gentle p.m. mobility 10 min; prioritize sleep."]
     else [])
  let cycle_note :=
    if s.cycle_phase = some "follicular" ∨ s.cycle_phase = some "ovulatory" then
      some "You’re in a high-performance window—OK to push intensity if you feel fresh."
    else if s.cycle_phase = some "late_luteal" then
      some "Late luteal—deload 15–25% and favor low-impact work."
    else
      none
  pure
    { day_focus := focus
      sessions := blocks
      recovery := recovery
      flags := flags
      cycle_note := cycle_note
      notes := "Session adapted to time and context; avoid stacking two hard days." }

/-- A summary with every optional reading absent and ten minutes available. -/
def emptySummary : DailySummary :=
  ⟨"2024-01-01", none, none, none, none, none, none, none, none, [], 10⟩

/-- A summary in sleep debt (300 min) during the follicular phase. -/
def sleepDebtSummary : DailySummary :=
  ⟨"2024-01-02", none, none, some 300, none, none, none, none,
   some "follicular", [], 45⟩

/-- A summary whose resting heart rate sits exactly 5 percent above its
7-day baseline. -/
def rhrBoundarySummary : DailySummary :=
  ⟨"2024-01-03", none, some 105, none, none, none, none, some 100,
   none, [], 30⟩

/-- A summary with no flags, no cycle phase, and 31 minutes available. -/
def band31Summary : DailySummary :=
  ⟨"2024-01-04", none, none, none, none, none, none, none, none, [], 31⟩

theorem except_ok_bind {ε α β : Type} (a : α) (f : α → Except ε β) :
    (Except.ok a : Except ε α) >>= f = f a := rfl

theorem percent_delta_checked_eq (v b : Option ℚ) :
    percent_delta_checked v b = Except.ok (percent_delta v b) := by
  rcases v with _ | v <;> rcases b with _ | b <;>
    simp [percent_delta_checked, percent_delta]
  by_cases h0 : b = 0 <;> simp [h0, div_checked, Except.bind]

theorem short_session_blocks_facts (focus : String) (t : Int)
    (ctx : List String) :
    1 ≤ (short_session_blocks focus t ctx).length ∧
    (short_session_blocks focus t ctx).length ≤ 3 ∧
    ∀ b ∈ short_session_blocks focus t ctx,
      b.name ≠ "" ∧ 0 < b.duration_min ∧ b.content ≠ [] := by
  unfold short_session_blocks
  split_ifs <;> simp

/-- C1: if any of the five computed flags is true, the plan's day focus is
"Recovery / Deload" regardless of cycle phase; when all five flags are
false, the day focus is "Speed / Strength" iff the cycle phase is
follicular or ovulatory, and "Aerobic Base / Skills" otherwise. -/
theorem claim_C1 (s : DailySummary) :
    (((compute_flags s).low_hrv || (compute_flags s).high_rhr ||
        (compute_flags s).sleep_debt || (compute_flags s).high_load ||
        (compute_flags s).late_luteal) = true →
      (generate_plan s).day_focus = "Recovery / Deload") ∧
    (((compute_flags s).low_hrv || (compute_flags s).high_rhr ||
        (compute_flags s).sleep_debt || (compute_flags s).high_load ||
        (compute_flags s).late_luteal) = false →
      (((generate_plan s).day_focus = "Speed / Strength" ↔
          (s.cycle_phase = some "follicular" ∨ s.cycle_phase = some "ovulatory")) ∧
       ((generate_plan s).day_focus = "Aerobic Base / Skills" ↔
          ¬(s.cycle_phase = some "follicular" ∨ s.cycle_phase = some "ovulatory")))) := by
  constructor
  · intro h
    simp [generate_plan, pick_focus, h]
  · intro h
    by_cases hc : s.cycle_phase = some "follicular" ∨ s.cycle_phase = some "ovulatory" <;>
      simp [generate_plan, pick_focus, h, hc]

theorem claim_C1_witness :
    (generate_plan sleepDebtSummary).day_focus = "Recovery / Deload" :=
  (claim_C1 sleepDebtSummary).1 (by decide)

/-- C2: `low_hrv` is true iff both `hrv_ms` and `avg7_hrv_ms` are present,
the baseline is nonzero, and the percent delta is strictly below -10;
whenever either operand is absent or the baseline is zero, `low_hrv` is
false, never an error. -/
theorem claim_C2 (s : DailySummary) :
    ((compute_flags s).low_hrv = true ↔
      ∃ v b, s.hrv_ms = some v ∧ s.avg7_hrv_ms = some b ∧ b ≠ 0 ∧
        (v - b) / b * 100 < -10) ∧
    (s.hrv_ms = none ∨ s.avg7_hrv_ms = none ∨ s.avg7_hrv_ms = some 0 →
      (compute_flags s).low_hrv = false) := by
  rcases hv : s.hrv_ms with _ | v <;> rcases hb : s.avg7_hrv_ms with _ | b <;>
    simp [compute_flags, percent_delta, hv, hb]
  by_cases h0 : b = 0 <;> simp [h0]

theorem claim_C2_witness : (compute_flags emptySummary).low_hrv = false :=
  (claim_C2 emptySummary).2 (Or.inl rfl)

/-- C3: with `rhr_bpm` and `avg7_rhr_bpm` present and the baseline nonzero,
`high_rhr` is true iff the percent delta strictly exceeds +5; at exactly
+5 percent the flag is false. -/
theorem claim_C3 (s : DailySummary) (v b : ℚ) (hv : s.rhr_bpm = some v)
    (hb : s.avg7_rhr_bpm = some b) (hb0 : b ≠ 0) :
    ((compute_flags s).high_rhr = true ↔ (v - b) / b * 100 > 5) ∧
    ((v - b) / b * 100 = 5 → (compute_flags s).high_rhr = false) := by
  constructor
  · simp [compute_flags, percent_delta, hv, hb, hb0]
  · intro h5
    simp [compute_flags, percent_delta, hv, hb, hb0, h5]

theorem claim_C3_witness :
    (compute_flags rhrBoundarySummary).high_rhr = false :=
  (claim_C3 rhrBoundarySummary 105 100 rfl rfl (by norm_num)).2 (by norm_num)

/-- C4: in every time band, a renovation tag makes the Speed / Strength
focus return exactly the default/consolidation block set of that band
(for time 20 the Band B default set), and the renovation tag never changes
the Recovery / Deload blocks. -/
theorem claim_C4 (t : Int) (ctx : List String) (h : "renovation" ∈ ctx) :
    short_session_blocks "Speed / Strength" t ctx =
      short_session_blocks "Aerobic Base / Skills" t ctx ∧
    short_session_blocks "Speed / Strength" 20 ["renovation"] =
      [⟨"Z2 run / bike", 20, ["HR < 75% max"]⟩,
       ⟨"Mobility", 8, ["hips", "glutes"]⟩] ∧
    ∀ t2 c2, short_session_blocks "Recovery / Deload" t2 c2 =
      short_session_blocks "Recovery / Deload" t2 [] := by
  refine ⟨?_, rfl, ?_⟩
  · simp [short_session_blocks, h]
  · intro t2 c2
    simp [short_session_blocks]

theorem claim_C4_witness :
    short_session_blocks "Speed / Strength" 20 ["renovation"] =
      short_session_blocks "Aerobic Base / Skills" 20 ["renovation"] :=
  (claim_C4 20 ["renovation"] (by simp)).1

/-- C5: every time strictly above 30 minutes yields the Band C block set,
identical for all such times; with focus "Aerobic Base / Skills" and 45
minutes the result is exactly Z2 long (35 min) then Technique (10 min). -/
theorem claim_C5 (f : String) (t : Int) (ctx : List String) (h : 30 < t) :
    short_session_blocks f t ctx = short_session_blocks f 31 ctx ∧
    ∀ c, short_session_blocks "Aerobic Base / Skills" 45 c =
      [⟨"Z2 long", 35, ["HR < 75% max"]⟩,
       ⟨"Technique", 10, ["passing / ball-handling (trainers)"]⟩] := by
  constructor
  · have h1 : ¬ t ≤ 15 := by omega
    have h2 : ¬ t ≤ 30 := by omega
    simp [short_session_blocks, h1, h2]
  · intro c
    simp [short_session_blocks]

theorem claim_C5_witness :
    short_session_blocks "Aerobic Base / Skills" 45 [] =
      [⟨"Z2 long", 35, ["HR < 75% max"]⟩,
       ⟨"Technique", 10, ["passing / ball-handling (trainers)"]⟩] :=
  (claim_C5 "Aerobic Base / Skills" 45 [] (by norm_num)).2 []

/-- C6: the plan's recovery list is exactly, in fixed order, the sleep
message iff `sleep_debt` is set, then always the electrolytes message,
then the mobility message iff the cycle phase is late luteal. -/
theorem claim_C6 (s : DailySummary) :
    (generate_plan s).recovery =
      (if (compute_flags s).sleep_debt then
         ["Aim 7h30–8h sleep tonight; cool room; wind-down 30 min."]
       else []) ++
      ["+500 ml electrolytes after session"] ++
      (if s.cycle_phase = some "late_luteal" then
         ["Gentle p.m. mobility 10 min; prioritize sleep."]
       else []) := rfl

theorem claim_C6_witness :
    (generate_plan sleepDebtSummary).recovery =
      (if (compute_flags sleepDebtSummary).sleep_debt then
         ["Aim 7h30–8h sleep tonight; cool room; wind-down 30 min."]
       else []) ++
      ["+500 ml electrolytes after session"] ++
      (if sleepDebtSummary.cycle_phase = some "late_luteal" then
         ["Gentle p.m. mobility 10 min; prioritize sleep."]
       else []) :=
  claim_C6 sleepDebtSummary

/-- C7: the plan's cycle note is the high-performance message when the
cycle phase is follicular or ovulatory, the late-luteal deload message
when the phase is late luteal, and absent for every other phase value
including absent. -/
theorem claim_C7 (s : DailySummary) :
    ((s.cycle_phase = some "follicular" ∨ s.cycle_phase = some "ovulatory") →
      (generate_plan s).cycle_note =
        some "You’re in a high-performance window—OK to push intensity if you feel fresh.") ∧
    (s.cycle_phase = some "late_luteal" →
      (generate_plan s).cycle_note =
        some "Late luteal—deload 15–25% and favor low-impact work.") ∧
    (¬(s.cycle_phase = some "follicular" ∨ s.cycle_phase = some "ovulatory" ∨
        s.cycle_phase = some "late_luteal") →
      (generate_plan s).cycle_note = none) := by
  refine ⟨fun h => ?_, fun h => ?_, fun h => ?_⟩
  · simp [generate_plan, h]
  · simp [generate_plan, h]
  · push_neg at h
    simp [generate_plan, h.1, h.2.1, h.2.2]

theorem claim_C7_witness :
    (generate_plan sleepDebtSummary).cycle_note =
      some "You’re in a high-performance window—OK to push intensity if you feel fresh." :=
  (claim_C7 sleepDebtSummary).1 (Or.inl rfl)

/-- C8: `generate_plan` is total over well-typed summaries — running the
pipeline with the division made explicitly fallible never produces an
error and agrees with the total function on every input. -/
theorem claim_C8 (s : DailySummary) :
    generate_plan_checked s = Except.ok (generate_plan s) := by
  have h1 : compute_flags_checked s = Except.ok (compute_flags s) := by
    simp [compute_flags_checked, compute_flags, percent_delta_checked_eq,
      except_ok_bind]
  simp [generate_plan_checked, generate_plan, h1, except_ok_bind]

theorem claim_C8_witness :
    generate_plan_checked emptySummary = Except.ok (generate_plan emptySummary) :=
  claim_C8 emptySummary

/-- C9: for every focus, time and context, the block composer returns
between one and three blocks, each with a non-empty name, a strictly
positive duration and a non-empty content list; hence the sessions of
every generated plan are never empty. -/
theorem claim_C9 :
    (∀ focus t ctx, 1 ≤ (short_session_blocks focus t ctx).length ∧
        (short_session_blocks focus t ctx).length ≤ 3 ∧
        ∀ b ∈ short_session_blocks focus t ctx,
          b.name ≠ "" ∧ 0 < b.duration_min ∧ b.content ≠ []) ∧
    (∀ s : DailySummary, (generate_plan s).sessions ≠ []) := by
  refine ⟨short_session_blocks_facts, fun s => ?_⟩
  have h := (short_session_blocks_facts
    (pick_focus (compute_flags s) s.cycle_phase) s.time_min s.context).1
  intro hnil
  have hs : (generate_plan s).sessions =
      short_session_blocks (pick_focus (compute_flags s) s.cycle_phase)
        s.time_min s.context := rfl
  rw [hs] at hnil
  simp [hnil] at h

theorem claim_C9_witness : (generate_plan emptySummary).sessions ≠ [] :=
  claim_C9.2 emptySummary

/-- C10: every Band C block set totals 43 or 45 minutes regardless of the
available time, and for a summary with 31 minutes available and focus
"Aerobic Base / Skills" the blocks total 45 minutes, 14 minutes more than
the time available. -/
theorem claim_C10 :
    (∀ (f : String) (ctx : List String) (t : Int), 30 < t →
      ((short_session_blocks f t ctx).map Block.duration_min).sum = 43 ∨
      ((short_session_blocks f t ctx).map Block.duration_min).sum = 45) ∧
    (∃ s : DailySummary, s.time_min = 31 ∧
      (generate_plan s).day_focus = "Aerobic Base / Skills" ∧
      ((generate_plan s).sessions.map Block.duration_min).sum =
        s.time_min + 14) := by
  constructor
  · intro f ctx t h
    have h1 : ¬ t ≤ 15 := by omega
    have h2 : ¬ t ≤ 30 := by omega
    unfold short_session_blocks
    split_ifs <;> simp_all
  · exact ⟨band31Summary, rfl, by decide, by decide⟩

theorem claim_C10_witness :
    ((short_session_blocks "Aerobic Base / Skills" 31 []).map
        Block.duration_min).sum = 43 ∨
    ((short_session_blocks "Aerobic Base / Skills" 31 []).map
        Block.duration_min).sum = 45 :=
  claim_C10.1 "Aerobic Base / Skills" [] 31 (by norm_num)
